import Mathlib

/-!
# Verification of the ortho-evidence synthesis pipeline

Shallow embedding of `src/evidence_processor.py` (class `EvidenceDatabase`):
the text-signal extractor `_parse_risk_description`, the evidence weighting
`_get_evidence_level_weight`, the five derived-table generators, the
transactional wrapper `generate_all_evidence_data`, and the necessity scorer
`calculate_ortho_necessity_score`.

Conventions:
* Python floats are modelled as `ℚ`; Python ints as `ℤ`/`ℕ`.
* SQL tables are lists of structure values; inner joins are list binds over
  the matching filter, in findings-major order.
* Python truthiness of `effect_value` (`None` and `0.0` are falsy) is the
  predicate `truthyVal`.
* Narrative text columns (`description_ja`, `benefit_text_ja`, the scenario
  texts) are elided from the derived-row models: no claim refers to them and
  they are pure string formatting of the numeric fields kept here.
-/

namespace OrthoEvidence

/-! ## Data model (base tables) -/

/-- A row of `research_papers` (only the columns the embedded code reads). -/
structure ResearchPaper where
  paper_id : ℕ
  evidence_level : String
deriving DecidableEq

/-- A row of `research_findings`. -/
structure ResearchFinding where
  paper_id : ℕ
  issue_id : ℕ
  finding_type : String
  description_ja : String
  effect_value : Option ℚ
  effect_direction : String
  applies_to_age_min : ℤ
  applies_to_age_max : ℤ
deriving DecidableEq

/-- A row of `dental_issues`. -/
structure DentalIssue where
  issue_id : ℕ
  issue_name_ja : String
  severity_base_score : ℚ
deriving DecidableEq

/-- The base-table state the generators aggregate over. -/
structure DB where
  papers : List ResearchPaper
  findings : List ResearchFinding
  issues : List DentalIssue
deriving DecidableEq

/-- Python truthiness of an optional float: `None` and `0.0` are falsy. -/
def truthyVal : Option ℚ → Bool
  | none => false
  | some v => v != 0

/-! ## Helpers shared with CPython semantics -/

/-- Python 3 `round` on an exact value: round half to even (banker's
rounding), as `round` does on floats. -/
def pyRound (q : ℚ) : ℤ :=
  let f := ⌊q⌋
  if q - f < 1/2 then f
  else if (1/2 : ℚ) < q - f then f + 1
  else if f % 2 = 0 then f else f + 1

/-- Decimal digits of the fractional part `num/den` (with `num < den`),
emitted while nonzero, with fuel 17 (the longest repr CPython prints). -/
def decExpand (num den : ℕ) : ℕ → String
  | 0 => ""
  | fuel + 1 =>
    if num = 0 then ""
    else toString (num * 10 / den) ++ decExpand (num * 10 % den) den fuel

/-- Models CPython `str` of a float whose value is a short exact decimal
(`str(42.0) = "42.0"`, `str(2.5) = "2.5"`): sign, integer part, then the
fractional digits (`"0"` when the value is integral). -/
def pyFloatStr (q : ℚ) : String :=
  let sign := if q < 0 then "-" else ""
  let a := if q < 0 then -q else q
  let ipart := a.num.toNat / a.den
  let fpart := a.num.toNat % a.den
  let ds := decExpand fpart a.den 17
  sign ++ toString ipart ++ "." ++ (if ds = "" then "0" else ds)

/-- `pat in s` of Python: substring containment over characters. -/
def listStartsWith : List Char → List Char → Bool
  | [], _ => true
  | _ :: _, [] => false
  | p :: ps, c :: cs => p == c && listStartsWith ps cs

/-- Substring search used to model Python's `in` on strings. -/
def subStr (pat : List Char) : List Char → Bool
  | [] => pat.isEmpty
  | c :: cs => listStartsWith pat (c :: cs) || subStr pat cs

/-- `pat in s` for strings. -/
def strContains (s pat : String) : Bool := subStr pat.toList s.toList

/-! ## TextSignalExtractor: `_parse_risk_description` -/

/-- Value of a decimal-digit character (ASCII and full-width, as Python's
`\d` and `float()` accept both). -/
def pyDigit? (c : Char) : Option ℕ :=
  if c.isDigit then some (c.toNat - 48)
  else if '０' ≤ c && c ≤ '９' then some (c.toNat - 0xFF10)
  else none

/-- Maximal digit run at the head of the character list. -/
def takeDigits : List Char → List ℕ × List Char
  | [] => ([], [])
  | c :: cs =>
    match pyDigit? c with
    | some d =>
      let (ds, rest) := takeDigits cs
      (d :: ds, rest)
    | none => ([], c :: cs)

/-- Numeric value of `intDs . fracDs` as a rational. -/
def decimalVal (intDs fracDs : List ℕ) : ℚ :=
  (intDs.foldl (fun a d => 10 * a + (d : ℚ)) 0) +
    fracDs.foldr (fun d a => ((d : ℚ) + a) / 10) 0

/-- One attempt of the regex `(\d+\.?\d*)u` at the head of the suffix:
maximal digits, an optional dot with maximal digits, then the unit
character `u`. Mirrors `re.search`'s backtracking outcome for this
pattern (shortening a maximal digit run can never create a match). -/
def matchNumAt (s : List Char) (u : Char) : Option ℚ :=
  let (d1, r1) := takeDigits s
  if d1.isEmpty then none
  else
    match r1 with
    | '.' :: r2 =>
      let (d2, r3) := takeDigits r2
      match r3 with
      | c :: _ => if c == u then some (decimalVal d1 d2) else none
      | [] => none
    | c :: _ => if c == u then some (decimalVal d1 []) else none
    | [] => none

/-- `re.search(r'(\d+\.?\d*)u', s)`: leftmost match of the number-then-unit
pattern, returning the numeric value of the group. -/
def searchNumUnit (u : Char) : List Char → Option ℚ
  | [] => none
  | c :: cs =>
    match matchNumAt (c :: cs) u with
    | some v => some v
    | none => searchNumUnit u cs

/-- Direction extraction of `_parse_risk_description`: increase keywords
first, then decrease keywords, else neutral. -/
def parseDirection (s : String) : String :=
  if strContains s "上昇" || strContains s "増加" || strContains s "高まる" ||
      strContains s "倍" then "increase"
  else if strContains s "低下" || strContains s "減少" || strContains s "改善" then
    "decrease"
  else "neutral"

/-- `EvidenceDatabase._parse_risk_description`: extract `(effect_value,
effect_direction)` from a risk description. Percent pattern first; else the
multiplier pattern `n倍` converted by `n*100 - 100`; else no value.
Direction is computed independently from keyword containment. -/
def parse_risk_description (s : String) : Option ℚ × String :=
  let value :=
    match searchNumUnit '%' s.toList with
    | some v => some v
    | none =>
      match searchNumUnit '倍' s.toList with
      | some v => some (v * 100 - 100)
      | none => none
  (value, parseDirection s)

/-! ## EvidenceWeighting: `_get_evidence_level_weight` -/

/-- `EvidenceDatabase._get_evidence_level_weight`: evidence tier to weight,
unknown tiers defaulting to `0.5`. -/
def get_evidence_level_weight : String → ℚ
  | "1a" => 5
  | "1b" => 4
  | "2a" => 3
  | "2b" => 2
  | "3" => 3/2
  | "4" => 1
  | "5" => 1/2
  | _ => 1/2

theorem get_evidence_level_weight_pos (e : String) :
    0 < get_evidence_level_weight e := by
  unfold get_evidence_level_weight
  split <;> norm_num

/-! ## AggregationEngine: `generate_age_risk_profiles` -/

/-- A row of the SELECT in `generate_age_risk_profiles`: a finding inner
joined with its paper and its issue. -/
structure RiskJoinRow where
  finding : ResearchFinding
  paper : ResearchPaper
  issue : DentalIssue
deriving DecidableEq

/-- The three-table inner join, findings-major. -/
def joinRisk (db : DB) : List RiskJoinRow :=
  db.findings.flatMap fun f =>
    (db.papers.filter fun p => p.paper_id == f.paper_id).flatMap fun p =>
      (db.issues.filter fun i => i.issue_id == f.issue_id).map fun i =>
        ⟨f, p, i⟩

/-- The WHERE clause of the per-threshold query: risk findings with
direction `increase` whose maximum applicable age reaches the threshold. -/
def fetchRisk (db : DB) (threshold : ℤ) : List RiskJoinRow :=
  (joinRisk db).filter fun r =>
    r.finding.finding_type == "risk" && r.finding.effect_direction == "increase" &&
      decide (threshold ≤ r.finding.applies_to_age_max)

/-- Weight contributed by one fetched row: its paper's evidence weight when
the effect value is truthy, nothing otherwise (`total_weight += weight`). -/
def riskContribW (r : RiskJoinRow) : ℚ :=
  if truthyVal r.finding.effect_value then
    get_evidence_level_weight r.paper.evidence_level
  else 0

/-- Weighted value contributed by one fetched row
(`weighted_risk += effect_value * weight`). -/
def riskContribS (r : RiskJoinRow) : ℚ :=
  match r.finding.effect_value with
  | some v =>
    if v ≠ 0 then v * get_evidence_level_weight r.paper.evidence_level else 0
  | none => 0

/-- `total_weight` accumulated over the fetched rows. -/
def riskWtot (rows : List RiskJoinRow) : ℚ := (rows.map riskContribW).sum

/-- `weighted_risk` accumulated over the fetched rows. -/
def riskWsum (rows : List RiskJoinRow) : ℚ := (rows.map riskContribS).sum

/-- The `paper_ids` list accumulated over the fetched rows. The code
appends `str(finding[0])` and column 0 of the SELECT is `effect_value`,
so the entries are the stringified effect values. -/
def riskProv (rows : List RiskJoinRow) : List String :=
  rows.filterMap fun r =>
    match r.finding.effect_value with
    | some v => if v ≠ 0 then some (pyFloatStr v) else none
    | none => none

/-- The weighted average `weighted_risk / total_weight` of a bucket. -/
def avgRisk (rows : List RiskJoinRow) : ℚ := riskWsum rows / riskWtot rows

/-- A row of the derived table `age_risk_profiles` (`risk_type` is always
`'tooth_loss'` and the narrative column is elided). -/
structure AgeRiskProfileRow where
  age_threshold : ℤ
  risk_value : ℚ
  calculated_from : String
  confidence_level : ℚ
deriving DecidableEq

/-- The fixed threshold set of `generate_age_risk_profiles`. -/
def age_thresholds : List ℤ := [12, 18, 25, 40, 60]

/-- The loop body of `generate_age_risk_profiles` for one threshold: when
the fetch is empty, `if findings:` fails and NO row is appended; when some
fetched row has positive total weight, the weighted-average row; otherwise
the default row (`threshold / 2`, provenance `'default'`, confidence 0.5). -/
def riskProfileFor (db : DB) (threshold : ℤ) : Option AgeRiskProfileRow :=
  if (fetchRisk db threshold).isEmpty then none
  else if 0 < riskWtot (fetchRisk db threshold) then
    some { age_threshold := threshold
           risk_value :=
             riskWsum (fetchRisk db threshold) /
               riskWtot (fetchRisk db threshold)
           calculated_from :=
             String.intercalate "," (riskProv (fetchRisk db threshold))
           confidence_level :=
             min (riskWtot (fetchRisk db threshold) /
               (((fetchRisk db threshold).length : ℚ))) (19/20) }
  else
    some { age_threshold := threshold
           risk_value := (threshold : ℚ) / 2
           calculated_from := "default"
           confidence_level := 1/2 }

/-- `EvidenceDatabase.generate_age_risk_profiles`: the list of rows the run
inserts into `age_risk_profiles`, in threshold order. -/
def generate_age_risk_profiles (db : DB) : List AgeRiskProfileRow :=
  age_thresholds.filterMap (riskProfileFor db)

/-! ## AggregationEngine: `generate_issue_treatment_effects` -/

/-- A row of the per-issue SELECT: a finding inner joined with its paper. -/
structure EffJoinRow where
  finding : ResearchFinding
  paper : ResearchPaper
deriving DecidableEq

/-- The per-issue fetch (`WHERE rf.issue_id = ?` plus the paper join). -/
def fetchEff (db : DB) (issue_id : ℕ) : List EffJoinRow :=
  (db.findings.filter fun f => f.issue_id == issue_id).flatMap fun f =>
    (db.papers.filter fun p => p.paper_id == f.paper_id).map fun p => ⟨f, p⟩

/-- The keyword table of `_categorize_findings`, in declared order. -/
def category_keywords : List (String × List String) :=
  [("caries_risk", ["齲蝕", "むし歯", "虫歯", "caries"]),
   ("periodontal_risk", ["歯周病", "歯周炎", "periodontal"]),
   ("tmj_risk", ["顎関節症", "TMJ", "temporomandibular"]),
   ("mastication", ["咀嚼", "咬合", "chewing", "mastication"]),
   ("aesthetic", ["審美", "見た目", "aesthetic", "appearance"]),
   ("pronunciation", ["発音", "構音", "speech", "pronunciation"]),
   ("trauma_risk", ["外傷", "trauma"])]

/-- `_categorize_findings` for a single finding: first category one of
whose keywords occurs in the description, else `"other"`. -/
def categoryOf (description : String) : String :=
  match category_keywords.find? fun ck =>
      ck.2.any fun kw => strContains description kw with
  | some ck => ck.1
  | none => "other"

/-- The category keys in order of first appearance (Python dict insertion
order in `_categorize_findings`). -/
def seenCategories (rows : List EffJoinRow) : List String :=
  rows.foldl
    (fun acc r =>
      let c := categoryOf r.finding.description_ja
      if acc.contains c then acc else acc ++ [c])
    []

/-- `_categorize_findings`: the fetched rows grouped by category. -/
def categorize (rows : List EffJoinRow) : List (String × List EffJoinRow) :=
  (seenCategories rows).map fun c =>
    (c, rows.filter fun r => categoryOf r.finding.description_ja == c)

/-- Weight contributed by one row of a category (truthy values only). -/
def effContribW (r : EffJoinRow) : ℚ :=
  if truthyVal r.finding.effect_value then
    get_evidence_level_weight r.paper.evidence_level
  else 0

/-- Signed weighted value contributed by one row: `decrease` adds
`value*weight`, `increase` subtracts it, `neutral` adds nothing. -/
def effContribS (r : EffJoinRow) : ℚ :=
  match r.finding.effect_value with
  | some v =>
    if v ≠ 0 then
      if r.finding.effect_direction == "decrease" then
        v * get_evidence_level_weight r.paper.evidence_level
      else if r.finding.effect_direction == "increase" then
        -(v * get_evidence_level_weight r.paper.evidence_level)
      else 0
    else 0
  | none => 0

/-- `total_weight` of a category. -/
def effWtot (rows : List EffJoinRow) : ℚ := (rows.map effContribW).sum

/-- `weighted_effect` of a category. -/
def effWsum (rows : List EffJoinRow) : ℚ := (rows.map effContribS).sum

/-- The `paper_ids` provenance of a category: here the code really appends
`str(paper_id)` for each truthy-valued row. -/
def effProv (rows : List EffJoinRow) : List String :=
  rows.filterMap fun r =>
    if truthyVal r.finding.effect_value then some (toString r.paper.paper_id)
    else none

/-- `direction_counts[d]` over the truthy-valued rows of a category. -/
def dirCount (d : String) (rows : List EffJoinRow) : ℕ :=
  rows.countP fun r =>
    truthyVal r.finding.effect_value && r.finding.effect_direction == d

/-- A row of the derived table `issue_treatment_effects` (narrative column
elided). -/
structure TreatmentEffectRow where
  issue_id : ℕ
  effect_category : String
  effect_value : ℚ
  effect_direction : String
  calculated_from : String
  confidence_level : ℚ
deriving DecidableEq

/-- The per-category body: a row is appended only when `total_weight > 0`;
direction is the majority vote with ties resolved to `increase`; the stored
magnitude is the absolute weighted average. -/
def effectRowFor (issue_id : ℕ) (cat : String) (rows : List EffJoinRow) :
    Option TreatmentEffectRow :=
  let w := effWtot rows
  if 0 < w then
    some { issue_id := issue_id
           effect_category := cat
           effect_value := |effWsum rows / w|
           effect_direction :=
             if dirCount "increase" rows < dirCount "decrease" rows then
               "decrease"
             else "increase"
           calculated_from := String.intercalate "," (effProv rows)
           confidence_level := min (w / (rows.length : ℚ)) (19/20) }
  else none

/-- The default-effects lookup table of `_generate_default_effects`. -/
def default_effects_table : List (String × List (String × ℚ × String)) :=
  [("叢生", [("caries_risk", 38, "decrease"), ("periodontal_risk", 45, "decrease")]),
   ("開咬", [("caries_risk", 58, "decrease"), ("pronunciation", 90, "decrease")]),
   ("過蓋咬合", [("trauma_risk", 65, "decrease"), ("tmj_risk", 55, "decrease")]),
   ("交叉咬合", [("tmj_risk", 85, "decrease"), ("mastication", 40, "decrease")]),
   ("上顎前突", [("trauma_risk", 75, "decrease"), ("aesthetic", 80, "decrease")]),
   ("下顎前突", [("mastication", 70, "decrease"), ("pronunciation", 30, "decrease")]),
   ("その他", [("caries_risk", 30, "decrease"), ("periodontal_risk", 25, "decrease")])]

/-- `_generate_default_effects`: per-name defaults with fallback `その他`,
each with provenance `'default'` and confidence 0.5. -/
def generate_default_effects (issue_id : ℕ) (issue_name : String) :
    List TreatmentEffectRow :=
  let data :=
    match default_effects_table.find? fun e => e.1 == issue_name with
    | some e => e.2
    | none => [("caries_risk", (30 : ℚ), "decrease"),
               ("periodontal_risk", (25 : ℚ), "decrease")]
  data.map fun cvd =>
    { issue_id := issue_id
      effect_category := cvd.1
      effect_value := cvd.2.1
      effect_direction := cvd.2.2
      calculated_from := "default"
      confidence_level := 1/2 }

/-- `EvidenceDatabase.generate_issue_treatment_effects`: for each issue,
aggregate its findings per category, or synthesize defaults when the issue
has no (joined) findings at all. -/
def generate_issue_treatment_effects (db : DB) : List TreatmentEffectRow :=
  db.issues.flatMap fun i =>
    let rows := fetchEff db i.issue_id
    if rows.isEmpty then generate_default_effects i.issue_id i.issue_name_ja
    else
      (categorize rows).filterMap fun cr => effectRowFor i.issue_id cr.1 cr.2

/-! ## AggregationEngine: `generate_age_timing_benefits` -/

/-- A row of `age_timing_benefits` (narrative and recommendation columns
elided; `calculated_from` is always `'combined_evidence'`). -/
structure TimingBenefitRow where
  age_group_code : String
  age_min : ℤ
  age_max : ℤ
  timing_score : ℚ
  calculated_from : String
  confidence_level : ℚ
deriving DecidableEq

/-- The five fixed age buckets with their hard-coded timing scores. -/
def timing_age_groups : List (String × ℤ × ℤ × ℚ) :=
  [("pediatric", 7, 12, 100),
   ("adolescent", 13, 18, 80),
   ("young_adult", 19, 35, 60),
   ("adult", 36, 60, 40),
   ("elderly", 61, 100, 20)]

/-- The supporting-evidence COUNT(*): findings (joined to a paper) whose
age range overlaps the bucket. -/
def countOverlap (db : DB) (age_min age_max : ℤ) : ℕ :=
  (db.findings.flatMap fun f =>
      (db.papers.filter fun p => p.paper_id == f.paper_id).map fun _ => f).countP
    fun f =>
      decide (f.applies_to_age_min ≤ age_max) &&
        decide (age_min ≤ f.applies_to_age_max)

/-- The confidence formula of `generate_age_timing_benefits`:
`min(0.5 + n/20, 0.95)` for a positive supporting count, `0.7` for zero. -/
def timingConfidence (n : ℕ) : ℚ :=
  if 0 < n then min (1/2 + (n : ℚ) / 20) (19/20) else 7/10

/-- `EvidenceDatabase.generate_age_timing_benefits`. -/
def generate_age_timing_benefits (db : DB) : List TimingBenefitRow :=
  timing_age_groups.map fun g =>
    { age_group_code := g.1
      age_min := g.2.1
      age_max := g.2.2.1
      timing_score := g.2.2.2
      calculated_from := "combined_evidence"
      confidence_level := timingConfidence (countOverlap db g.2.1 g.2.2.1) }

/-! ## AggregationEngine: `generate_future_scenarios` -/

/-- A row of `future_scenarios` (the two narrative columns elided;
`calculated_from` is always `'evidence_synthesis'`). -/
structure FutureScenarioRow where
  timeframe_years : ℤ
  applies_to_age_min : ℤ
  applies_to_age_max : ℤ
  calculated_from : String
  confidence_level : ℚ
deriving DecidableEq

/-- The three timeframes of `generate_future_scenarios`. -/
def scenario_timeframes : List ℤ := [5, 10, 20]

/-- The three age buckets of `generate_future_scenarios`. -/
def scenario_age_groups : List (ℤ × ℤ) := [(7, 18), (19, 40), (41, 100)]

/-- `EvidenceDatabase.generate_future_scenarios`: the 3 × 3 cross product,
timeframe-major, each with confidence `0.8 - years/50` (unclamped). -/
def generate_future_scenarios : List FutureScenarioRow :=
  scenario_timeframes.flatMap fun years =>
    scenario_age_groups.map fun g =>
      { timeframe_years := years
        applies_to_age_min := g.1
        applies_to_age_max := g.2
        calculated_from := "evidence_synthesis"
        confidence_level := 4/5 - (years : ℚ) / 50 }

/-! ## AggregationEngine: `generate_economic_impacts` -/

/-- A row of `economic_impacts` (`calculation_basis` and the group label
elided; `future_savings` is `int(cost * multiplier)`). -/
structure EconomicImpactRow where
  age_group_code : String
  age_min : ℤ
  age_max : ℤ
  current_cost : ℤ
  future_savings : ℤ
  roi : ℚ
  confidence_level : ℚ
deriving DecidableEq

/-- The five fixed buckets with hard-coded cost and savings multiplier. -/
def economic_age_groups : List (String × ℤ × ℤ × ℤ × ℚ) :=
  [("pediatric", 7, 12, 300000, 5),
   ("adolescent", 13, 18, 350000, 7/2),
   ("young_adult", 19, 35, 400000, 9/4),
   ("adult", 36, 60, 450000, 13/10),
   ("elderly", 61, 100, 500000, 3/5)]

/-- `EvidenceDatabase.generate_economic_impacts`. -/
def generate_economic_impacts : List EconomicImpactRow :=
  economic_age_groups.map fun g =>
    let cost : ℤ := g.2.2.2.1
    let savings : ℚ := (cost : ℚ) * g.2.2.2.2
    { age_group_code := g.1
      age_min := g.2.1
      age_max := g.2.2.1
      current_cost := cost
      future_savings := ⌊savings⌋
      roi := (savings - (cost : ℚ)) / (cost : ℚ) * 100
      confidence_level := 7/10 }

/-! ## Transactional model of the regenerate-all run

`sqlite3` connection semantics as the code uses them: every statement
mutates the working state; `conn.commit()` makes the working state the
committed state; `conn.rollback()` discards the working state back to the
last committed state. Each generator runs its DELETE + INSERTs on the
working state and commits on success; its `except` clause rolls back and
re-raises. A store failure during a generator's multi-row write is injected
through a fault oracle (the partial write it interrupts is immaterial
because the generator's rollback discards it). -/

/-- The five derived tables. -/
structure Tables where
  age_risk_profiles : List AgeRiskProfileRow
  issue_treatment_effects : List TreatmentEffectRow
  age_timing_benefits : List TimingBenefitRow
  future_scenarios : List FutureScenarioRow
  economic_impacts : List EconomicImpactRow
deriving DecidableEq

/-- Connection state: last committed tables and current working tables. -/
structure Conn where
  committed : Tables
  working : Tables
deriving DecidableEq

/-- The five generator steps of `generate_all_evidence_data`, in order. -/
inductive GenStep
  | risk
  | effects
  | timing
  | scenarios
  | economics
deriving DecidableEq, BEq

/-- The DELETE-then-INSERT content of one generator step applied to the
working tables. -/
def applyStep (db : DB) (step : GenStep) (t : Tables) : Tables :=
  match step with
  | .risk => { t with age_risk_profiles := generate_age_risk_profiles db }
  | .effects =>
    { t with issue_treatment_effects := generate_issue_treatment_effects db }
  | .timing => { t with age_timing_benefits := generate_age_timing_benefits db }
  | .scenarios => { t with future_scenarios := generate_future_scenarios }
  | .economics => { t with economic_impacts := generate_economic_impacts }

/-- One generator call: on a store fault its `except` clause rolls the
connection back to the last committed state and re-raises (`false`);
otherwise it rewrites its table and commits (`true`). -/
def runStep (db : DB) (fail : GenStep → Bool) (step : GenStep) (conn : Conn) :
    Conn × Bool :=
  if fail step then ({ conn with working := conn.committed }, false)
  else
    let t := applyStep db step conn.working
    ({ committed := t, working := t }, true)

/-- Sequential execution of the generator steps, stopping at the first
raised store failure. -/
def runSeq (db : DB) (fail : GenStep → Bool) :
    List GenStep → Conn → Conn × Bool
  | [], conn => (conn, true)
  | s :: rest, conn =>
    let (conn', ok) := runStep db fail s conn
    if ok then runSeq db fail rest conn' else (conn', false)

/-- The fixed step order of `generate_all_evidence_data`. -/
def genStepOrder : List GenStep :=
  [.risk, .effects, .timing, .scenarios, .economics]

/-- `EvidenceDatabase.generate_all_evidence_data`: the five generators in
order; a final `conn.commit()` on success; its own `except` clause rolls
back (a no-op, the failing generator already rolled back) and re-raises. -/
def generate_all_evidence_data (db : DB) (fail : GenStep → Bool)
    (conn : Conn) : Conn × Bool :=
  let (c, ok) := runSeq db fail genStepOrder conn
  if ok then ({ committed := c.working, working := c.working }, true)
  else ({ c with working := c.committed }, false)

/-! ## NecessityScorer: `calculate_ortho_necessity_score` -/

/-- The result record of `calculate_ortho_necessity_score`. -/
structure NecessityScoreResult where
  total_score : ℤ
  timing_score : ℤ
  severity_score : ℤ
  risk_score : ℤ
  interpretation : String
  urgency : String
deriving DecidableEq

/-- `_calculate_timing_score`: the first `age_timing_benefits` bucket
containing the age scaled to 0–35, else the fixed age ladder. -/
def calculate_timing_score (tabs : Tables) (age : ℤ) : ℚ :=
  match (tabs.age_timing_benefits.filter fun b =>
      decide (b.age_min ≤ age) && decide (age ≤ b.age_max)).head? with
  | some b => b.timing_score / 100 * 35
  | none =>
    if age ≤ 12 then 35
    else if age ≤ 18 then 30
    else if age ≤ 25 then 25
    else if age ≤ 40 then 20
    else if age ≤ 60 then 15
    else 10

/-- Maximum of a list of severities with head as the start (the list is
nonempty at every use). -/
def qListMax : List ℚ → ℚ
  | [] => 0
  | x :: xs => xs.foldl max x

/-- `_calculate_severity_score`: primary = maximum base severity; with more
than one fetched issue add half the sum of the remaining severities and cap
the 0–40 scaling at 40. -/
def calculate_severity_score (db : DB) (issue_ids : List ℕ) : ℚ :=
  if issue_ids.isEmpty then 0
  else
    let scores :=
      (db.issues.filter fun i => issue_ids.contains i.issue_id).map
        fun i => i.severity_base_score
    if scores.isEmpty then 0
    else
      let primary := qListMax scores
      if 1 < scores.length then
        min 40 ((primary + (scores.sum - primary) * (1/2)) / 100 * 40)
      else primary / 100 * 40

/-- The `age_risk_profiles` row with the smallest threshold at or above the
age (first row in threshold order, as `ORDER BY age_threshold LIMIT 1`). -/
def minThresholdRow : List AgeRiskProfileRow → Option AgeRiskProfileRow
  | [] => none
  | r :: rs =>
    match minThresholdRow rs with
    | none => some r
    | some m => if r.age_threshold ≤ m.age_threshold then some r else some m

/-- `_calculate_risk_score`: urgency decays over 15 years to the next
threshold; problem factor `min(1.5, 1 + 0.1*(n-1))`; scaled by
`risk_value/60` and 35 points. -/
def calculate_risk_score (tabs : Tables) (age : ℤ) (issue_ids : List ℕ) : ℚ :=
  match minThresholdRow
      (tabs.age_risk_profiles.filter fun r => decide (age ≤ r.age_threshold)) with
  | none => 0
  | some r =>
    let years_until : ℚ := ((r.age_threshold : ℚ) - (age : ℚ))
    let urgency := max 0 (1 - years_until / 15)
    let problem := min (3/2) (1 + ((issue_ids.length : ℚ) - 1) * (1/10))
    urgency * (r.risk_value / 60) * problem * 35

/-- `_interpret_necessity_score`: the five-tier interpretation. -/
def interpret_necessity_score (total : ℚ) : String × String :=
  if 85 ≤ total then ("緊急性の高い矯正必要性。早急な対応が強く推奨されます。", "緊急")
  else if 70 ≤ total then ("高い矯正必要性。できるだけ早い対応が望ましいです。", "高")
  else if 50 ≤ total then ("中程度の矯正必要性。計画的な対応を検討してください。", "中")
  else if 30 ≤ total then ("低〜中程度の矯正必要性。定期的な経過観察をお勧めします。", "低")
  else ("現時点での矯正必要性は低いですが、定期的な評価をお勧めします。", "最小")

/-- `EvidenceDatabase.calculate_ortho_necessity_score`: the composite
necessity score. An empty issue list returns the fixed zero result; all
other in-range computations are total, so the `except` fallback branch of
the source is unreachable in this model. -/
def calculate_ortho_necessity_score (db : DB) (tabs : Tables) (age : ℤ)
    (issue_ids : List ℕ) : NecessityScoreResult :=
  match issue_ids with
  | [] =>
    { total_score := 0
      timing_score := 0
      severity_score := 0
      risk_score := 0
      interpretation := "問題が選択されていないため、スコアを計算できません。"
      urgency := "不明" }
  | _ :: _ =>
    let timing := calculate_timing_score tabs age
    let severity := calculate_severity_score db issue_ids
    let risk := calculate_risk_score tabs age issue_ids
    let total0 := timing + severity + risk
    let total1 :=
      if age ≤ 18 then total0 + max 0 ((18 : ℚ) - (age : ℚ)) * (1/2) else total0
    let total2 :=
      if 35 ≤ age ∧ age ≤ 55 ∧ 2 ≤ issue_ids.length then
        total1 + ((issue_ids.length : ℚ) - 1) * 2
      else total1
    let total := max 10 (min 100 total2)
    let iu := interpret_necessity_score total
    { total_score := pyRound total
      timing_score := pyRound timing
      severity_score := pyRound severity
      risk_score := pyRound risk
      interpretation := iu.1
      urgency := iu.2 }

/-! ## Concrete states used in counterexamples and witnesses -/

/-- A base state with no records at all. -/
def emptyDB : DB := ⟨[], [], []⟩

/-- One paper (id 7, tier 2a) with one increase-direction risk finding of
effect value 42 applying to ages 1–100, on one issue. -/
def db3 : DB :=
  { papers := [⟨7, "2a"⟩]
    findings := [⟨7, 1, "risk", "リスク42%上昇", some 42, "increase", 1, 100⟩]
    issues := [⟨1, "叢生", 80⟩] }

/-- Like `db3` but the single finding carries effect value 400 (as the
multiplier text `5倍` would yield). -/
def db400 : DB :=
  { papers := [⟨7, "2a"⟩]
    findings := [⟨7, 1, "risk", "リスク5倍", some 400, "increase", 1, 100⟩]
    issues := [⟨1, "叢生", 80⟩] }

/-- Four findings (each joined to a paper) overlapping every age bucket. -/
def db4 : DB :=
  { papers := [⟨1, "2a"⟩]
    findings := List.replicate 4 ⟨1, 1, "risk", "リスク10%上昇", some 10, "increase", 1, 100⟩
    issues := [⟨1, "叢生", 80⟩] }

/-- Empty derived tables. -/
def tables0 : Tables := ⟨[], [], [], [], []⟩

/-- Derived tables holding one pre-existing risk-profile row. -/
def tablesOld : Tables := ⟨[⟨12, 6, "default", 1/2⟩], [], [], [], []⟩

/-- A connection whose committed and working states both hold `tablesOld`. -/
def conn0 : Conn := ⟨tablesOld, tablesOld⟩

/-- A fault oracle: the record store raises during the multi-row write of
the timing-benefits generator (the third step). -/
def failTiming : GenStep → Bool := fun s => s == GenStep.timing

/-! ## Claims -/

/-- C8: for every age, the necessity scorer on an empty condition set
returns total score 0, zero sub-scores and the explicit
"no conditions selected" interpretation, and (being total) never raises. -/
theorem C8_empty_conditions (db : DB) (tabs : Tables) (age : ℤ) :
    calculate_ortho_necessity_score db tabs age [] =
      { total_score := 0
        timing_score := 0
        severity_score := 0
        risk_score := 0
        interpretation := "問題が選択されていないため、スコアを計算できません。"
        urgency := "不明" } := rfl

/-- C9: all 9 generated future scenarios (3 timeframes × 3 age buckets)
carry confidence `0.8 - years/50` with no clamping, and per age bucket the
confidence strictly decreases along the timeframes: 0.7 > 0.6 > 0.4. -/
theorem C9_scenario_confidence :
    generate_future_scenarios.length = 9 ∧
    (∀ r ∈ generate_future_scenarios,
      r.confidence_level = 4/5 - (r.timeframe_years : ℚ) / 50) ∧
    (generate_future_scenarios.map fun r =>
        (r.timeframe_years, r.confidence_level)) =
      [(5, 7/10), (5, 7/10), (5, 7/10), (10, 3/5), (10, 3/5), (10, 3/5),
       (20, 2/5), (20, 2/5), (20, 2/5)] ∧
    ((3 : ℚ)/5 < 7/10 ∧ (2 : ℚ)/5 < 3/5) :=
  of_decide_eq_true (by with_unfolding_all rfl)

/-- C9 witness: the first generated scenario instantiates the decay law. -/
theorem C9_scenario_confidence_witness :
    (⟨5, 7, 18, "evidence_synthesis", 7/10⟩ : FutureScenarioRow).confidence_level =
      4/5 - ((⟨5, 7, 18, "evidence_synthesis", 7/10⟩ : FutureScenarioRow).timeframe_years : ℚ) / 50 :=
  C9_scenario_confidence.2.1 _ (of_decide_eq_true (by with_unfolding_all rfl))

/-- C7 counterexample: with exactly 4 supporting findings per bucket the
stored confidence is `0.5 + 4/20 = 0.7`, which equals — is not strictly
below — the zero-findings confidence `0.7`, refuting "zero supporting
findings yield strictly higher confidence than any n in 1..4". -/
theorem C7_counterexample :
    countOverlap db4 7 12 = 4 ∧
    ((generate_age_timing_benefits db4).map fun r => r.confidence_level) =
      [7/10, 7/10, 7/10, 7/10, 7/10] ∧
    countOverlap emptyDB 7 12 = 0 ∧
    ((generate_age_timing_benefits emptyDB).map fun r => r.confidence_level) =
      [7/10, 7/10, 7/10, 7/10, 7/10] ∧
    ¬ timingConfidence 4 < timingConfidence 0 :=
  of_decide_eq_true (by with_unfolding_all rfl)

/-- C7 amended: every stored timing-benefit confidence is
`min(0.5 + n/20, 0.95)` for a positive supporting count n and `0.7` for
zero — so zero supporting findings yield strictly higher confidence than
any n in 1..3, while n = 4 yields exactly the zero-findings value. -/
theorem C7_timing_confidence :
    (∀ (db : DB), ∀ r ∈ generate_age_timing_benefits db,
      r.confidence_level = timingConfidence (countOverlap db r.age_min r.age_max)) ∧
    (∀ n : ℕ, 0 < n → timingConfidence n = min (1/2 + (n : ℚ) / 20) (19/20)) ∧
    timingConfidence 0 = 7/10 ∧
    (∀ n : ℕ, 1 ≤ n → n ≤ 3 → timingConfidence n < timingConfidence 0) ∧
    timingConfidence 4 = timingConfidence 0 := by
  refine ⟨?_, ?_, rfl, ?_, of_decide_eq_true (by with_unfolding_all rfl)⟩
  · intro db r hr
    simp only [generate_age_timing_benefits, timing_age_groups, List.map_cons,
      List.map_nil, List.mem_cons, List.not_mem_nil, or_false] at hr
    rcases hr with rfl | rfl | rfl | rfl | rfl <;> rfl
  · intro n hn
    simp [timingConfidence, hn]
  · intro n h1 h3
    interval_cases n <;> exact of_decide_eq_true (by with_unfolding_all rfl)

/-- C7 witness: two supporting findings instantiate the strict comparison
with the zero-findings confidence. -/
theorem C7_timing_confidence_witness :
    timingConfidence 2 < timingConfidence 0 :=
  C7_timing_confidence.2.2.2.1 2 (by decide) (by decide)

/-- C3: evaluation at the failing input. The single contributing paper has
identifier 7, yet the generated `age_risk_profiles` rows carry
`calculated_from = "42.0"` — the stringified effect value appended by
`paper_ids.append(str(finding[0]))`, column 0 of the SELECT being
`effect_value` — while the treatment-effects generator correctly stores
`"7"`. -/
theorem C3_provenance_eval :
    ((generate_age_risk_profiles db3).map fun r =>
        (r.age_threshold, r.calculated_from)) =
      [(12, "42.0"), (18, "42.0"), (25, "42.0"), (40, "42.0"), (60, "42.0")] ∧
    (db3.papers.map fun p => toString p.paper_id) = ["7"] ∧
    ((generate_issue_treatment_effects db3).map fun r => r.calculated_from) =
      ["7"] ∧
    ("42.0" : String) ≠ "7" ∧ ("42.0" : String) ≠ "default" :=
  of_decide_eq_true (by with_unfolding_all rfl)

/-- C5 counterexample: with a store failure raised during the third
generator (timing benefits), `generate_all_evidence_data` reports failure,
yet the committed `age_risk_profiles` table has already been replaced by
the first generator's commit — the five-table run is not atomic. -/
theorem C5_counterexample :
    (generate_all_evidence_data emptyDB failTiming conn0).2 = false ∧
    (generate_all_evidence_data emptyDB failTiming conn0).1.committed.age_risk_profiles ≠
      conn0.committed.age_risk_profiles :=
  of_decide_eq_true (by with_unfolding_all rfl)

/-- The committed state left behind when the timing step fails: the risk
and treatment tables are already regenerated and committed. -/
def regenFailState (db : DB) (t : Tables) : Tables :=
  { t with
    age_risk_profiles := generate_age_risk_profiles db
    issue_treatment_effects := generate_issue_treatment_effects db }

/-- C5 amended: each individual generator is atomic — a store failure
inside it rolls its own changes back to the last committed state and
re-raises — but the regenerate-all run is not: each step commits on its
own success, so a failure at the timing step leaves the risk-profile and
treatment-effect tables regenerated and committed. -/
theorem C5_per_step_atomicity :
    (∀ (db : DB) (conn : Conn),
      generate_all_evidence_data db failTiming conn =
        (⟨regenFailState db conn.working, regenFailState db conn.working⟩, false)) ∧
    (∀ (db : DB) (fail : GenStep → Bool) (step : GenStep) (conn : Conn),
      fail step = true →
      runStep db fail step conn = ({ conn with working := conn.committed }, false)) := by
  constructor
  · intro db conn
    rfl
  · intro db fail step conn h
    simp [runStep, h]

/-- C5 witness: the per-step atomicity applied to the timing step on a
concrete connection. -/
theorem C5_per_step_atomicity_witness :
    runStep emptyDB failTiming GenStep.timing conn0 =
      ({ conn0 with working := conn0.committed }, false) :=
  C5_per_step_atomicity.2 emptyDB failTiming GenStep.timing conn0 (by decide)

/-- C4: the text extractor returns the percentage number when the percent
pattern matches (checked first), else the multiplier value `n*100 - 100`
when the `n倍` pattern matches, else no value; direction comes from keyword
containment alone; and the three reference inputs evaluate as specified. -/
theorem C4_text_extraction :
    parse_risk_description "5年後齲蝕リスク42%上昇" = (some 42, "increase") ∧
    parse_risk_description "リスク2.5倍" = (some 150, "increase") ∧
    (∀ (s : String) (v : ℚ), searchNumUnit '%' s.toList = some v →
      (parse_risk_description s).1 = some v) ∧
    (∀ (s : String) (v : ℚ), searchNumUnit '%' s.toList = none →
      searchNumUnit '倍' s.toList = some v →
      (parse_risk_description s).1 = some (v * 100 - 100)) ∧
    (∀ s : String, searchNumUnit '%' s.toList = none →
      searchNumUnit '倍' s.toList = none →
      (∀ kw ∈ ["上昇", "増加", "高まる", "倍", "低下", "減少", "改善"],
        strContains s kw = false) →
      parse_risk_description s = (none, "neutral")) ∧
    (∀ s : String, (parse_risk_description s).2 = parseDirection s) := by
  refine ⟨of_decide_eq_true (by with_unfolding_all rfl),
    of_decide_eq_true (by with_unfolding_all rfl), ?_, ?_, ?_, fun s => rfl⟩
  · intro s v h
    simp only [String.toList] at h
    simp [parse_risk_description, h]
  · intro s v h1 h2
    simp only [String.toList] at h1 h2
    simp [parse_risk_description, h1, h2]
  · intro s h1 h2 hkw
    simp only [String.toList] at h1 h2
    have k1 := hkw "上昇" (by simp)
    have k2 := hkw "増加" (by simp)
    have k3 := hkw "高まる" (by simp)
    have k4 := hkw "倍" (by simp)
    have k5 := hkw "低下" (by simp)
    have k6 := hkw "減少" (by simp)
    have k7 := hkw "改善" (by simp)
    simp [parse_risk_description, parseDirection, h1, h2, k1, k2, k3, k4, k5,
      k6, k7]

/-- C4 witness: a string with no numeric pattern and no direction keyword
yields no value and the neutral direction. -/
theorem C4_text_extraction_witness :
    parse_risk_description "将来の歯の健康" = (none, "neutral") :=
  C4_text_extraction.2.2.2.2.1 "将来の歯の健康"
    (of_decide_eq_true (by with_unfolding_all rfl))
    (of_decide_eq_true (by with_unfolding_all rfl))
    (of_decide_eq_true (by with_unfolding_all rfl))

/-- A fetched risk row with its finding's effect value replaced. -/
def setRiskVal (r : RiskJoinRow) (v : Option ℚ) : RiskJoinRow :=
  { r with finding := { r.finding with effect_value := v } }

/-- A fetched treatment row with its finding's effect value replaced. -/
def setEffVal (r : EffJoinRow) (v : Option ℚ) : EffJoinRow :=
  { r with finding := { r.finding with effect_value := v } }

/-- C10: in both aggregations a finding whose extracted value is exactly 0
(as `"1倍"` produces) behaves like one with an absent value: same weighted
sum, same total weight, same provenance list, and — in the per-condition
aggregation — the same direction vote counts. -/
theorem C10_zero_value_inert :
    (∀ (pre post : List RiskJoinRow) (r : RiskJoinRow),
      riskWsum (pre ++ setRiskVal r (some 0) :: post) =
        riskWsum (pre ++ setRiskVal r none :: post) ∧
      riskWtot (pre ++ setRiskVal r (some 0) :: post) =
        riskWtot (pre ++ setRiskVal r none :: post) ∧
      riskProv (pre ++ setRiskVal r (some 0) :: post) =
        riskProv (pre ++ setRiskVal r none :: post)) ∧
    (∀ (pre post : List EffJoinRow) (r : EffJoinRow),
      effWsum (pre ++ setEffVal r (some 0) :: post) =
        effWsum (pre ++ setEffVal r none :: post) ∧
      effWtot (pre ++ setEffVal r (some 0) :: post) =
        effWtot (pre ++ setEffVal r none :: post) ∧
      effProv (pre ++ setEffVal r (some 0) :: post) =
        effProv (pre ++ setEffVal r none :: post) ∧
      (∀ d : String, dirCount d (pre ++ setEffVal r (some 0) :: post) =
        dirCount d (pre ++ setEffVal r none :: post))) ∧
    (parse_risk_description "リスク1倍").1 = some 0 := by
  refine ⟨?_, ?_, of_decide_eq_true (by with_unfolding_all rfl)⟩
  · intro pre post r
    refine ⟨?_, ?_, ?_⟩ <;>
      simp [riskWsum, riskWtot, riskProv, riskContribS, riskContribW,
        setRiskVal, truthyVal, List.map_append, List.sum_append,
        List.filterMap_append]
  · intro pre post r
    refine ⟨?_, ?_, ?_, ?_⟩ <;>
      simp [effWsum, effWtot, effProv, effContribS, effContribW, dirCount,
        setEffVal, truthyVal, List.map_append, List.sum_append,
        List.filterMap_append, List.countP_append]

/-- A fetched risk row with its paper's evidence level replaced. -/
def retier (r : RiskJoinRow) (lvl : String) : RiskJoinRow :=
  { r with paper := { r.paper with evidence_level := lvl } }

theorem weight_five : get_evidence_level_weight "5" = 1/2 :=
  of_decide_eq_true (by with_unfolding_all rfl)

theorem weight_onea : get_evidence_level_weight "1a" = 5 :=
  of_decide_eq_true (by with_unfolding_all rfl)

theorem riskWtot_append_cons (pre post : List RiskJoinRow) (x : RiskJoinRow) :
    riskWtot (pre ++ x :: post) =
      riskWtot pre + riskWtot post + riskContribW x := by
  simp [riskWtot, List.map_append, List.sum_append]
  ring

theorem riskWsum_append_cons (pre post : List RiskJoinRow) (x : RiskJoinRow) :
    riskWsum (pre ++ x :: post) =
      riskWsum pre + riskWsum post + riskContribS x := by
  simp [riskWsum, List.map_append, List.sum_append]
  ring

theorem riskContribW_nonneg (r : RiskJoinRow) : 0 ≤ riskContribW r := by
  unfold riskContribW
  split
  · exact le_of_lt (get_evidence_level_weight_pos _)
  · exact le_refl 0

theorem riskWtot_nonneg (l : List RiskJoinRow) : 0 ≤ riskWtot l := by
  refine List.sum_nonneg ?_
  intro x hx
  simp only [List.mem_map] at hx
  obtain ⟨r, _, rfl⟩ := hx
  exact riskContribW_nonneg r

/-- Increasing the weight attached to value `v` inside a weighted average
pulls the average toward `v`: weakly always, strictly when the average was
not already `v`. -/
theorem shiftTowardAux (S W v : ℚ) (hW : 0 ≤ W) :
    |(S + v * 5) / (W + 5) - v| ≤ |(S + v * (1/2)) / (W + 1/2) - v| ∧
    ((S + v * (1/2)) / (W + 1/2) ≠ v →
      |(S + v * 5) / (W + 5) - v| < |(S + v * (1/2)) / (W + 1/2) - v|) := by
  have h5 : (0 : ℚ) < W + 5 := by linarith
  have hh : (0 : ℚ) < W + 1/2 := by linarith
  have e1 : (S + v * 5) / (W + 5) - v = (S - W * v) / (W + 5) := by
    field_simp
    ring
  have e2 : (S + v * (1/2)) / (W + 1/2) - v = (S - W * v) / (W + 1/2) := by
    field_simp
    ring
  constructor
  · rw [e1, e2, abs_div, abs_div, abs_of_pos h5, abs_of_pos hh]
    rcases eq_or_lt_of_le (abs_nonneg (S - W * v)) with h0 | hpos
    · rw [← h0, zero_div, zero_div]
    · exact le_of_lt (div_lt_div_of_pos_left hpos hh (by linarith))
  · intro hne
    have hnum : S - W * v ≠ 0 := by
      intro h0
      apply hne
      have : (S + v * (1/2)) / (W + 1/2) - v = 0 := by rw [e2, h0, zero_div]
      linarith
    rw [e1, e2, abs_div, abs_div, abs_of_pos h5, abs_of_pos hh]
    exact div_lt_div_of_pos_left (abs_pos.mpr hnum) hh (by linarith)

/-- C6: replacing a tier-5 finding of a bucket by an otherwise identical
tier-1a finding raises its weight from 0.5 to 5.0 and moves the bucket's
weighted average toward that finding's value — strictly whenever the
average was not already equal to it. -/
theorem C6_weighting_monotonicity (pre post : List RiskJoinRow)
    (f : RiskJoinRow) (v : ℚ) (hlev : f.paper.evidence_level = "5")
    (hval : f.finding.effect_value = some v) (hv : v ≠ 0) :
    get_evidence_level_weight "5" < get_evidence_level_weight "1a" ∧
    |avgRisk (pre ++ retier f "1a" :: post) - v| ≤
      |avgRisk (pre ++ f :: post) - v| ∧
    (avgRisk (pre ++ f :: post) ≠ v →
      |avgRisk (pre ++ retier f "1a" :: post) - v| <
        |avgRisk (pre ++ f :: post) - v|) := by
  have htr : truthyVal f.finding.effect_value = true := by
    simp [truthyVal, hval, hv]
  have htr' : truthyVal (retier f "1a").finding.effect_value = true := htr
  have hcwf : riskContribW f = 1/2 := by
    rw [riskContribW, if_pos htr, hlev, weight_five]
  have hcwf' : riskContribW (retier f "1a") = 5 := by
    rw [riskContribW, if_pos htr']
    exact weight_onea
  have hcsf : riskContribS f = v * (1/2) := by
    simp only [riskContribS, hval, if_pos hv, hlev, weight_five]
  have hcsf' : riskContribS (retier f "1a") = v * 5 := by
    have hval' : (retier f "1a").finding.effect_value = some v := hval
    simp only [riskContribS, hval', if_pos hv]
    have : (retier f "1a").paper.evidence_level = "1a" := rfl
    rw [this, weight_onea]
  have d1 : riskWtot (pre ++ f :: post) =
      (riskWtot pre + riskWtot post) + 1/2 := by
    rw [riskWtot_append_cons, hcwf]
  have d2 : riskWsum (pre ++ f :: post) =
      (riskWsum pre + riskWsum post) + v * (1/2) := by
    rw [riskWsum_append_cons, hcsf]
  have d3 : riskWtot (pre ++ retier f "1a" :: post) =
      (riskWtot pre + riskWtot post) + 5 := by
    rw [riskWtot_append_cons, hcwf']
  have d4 : riskWsum (pre ++ retier f "1a" :: post) =
      (riskWsum pre + riskWsum post) + v * 5 := by
    rw [riskWsum_append_cons, hcsf']
  have hWnn : 0 ≤ riskWtot pre + riskWtot post :=
    add_nonneg (riskWtot_nonneg pre) (riskWtot_nonneg post)
  obtain ⟨hle, hlt⟩ :=
    shiftTowardAux (riskWsum pre + riskWsum post)
      (riskWtot pre + riskWtot post) v hWnn
  refine ⟨by rw [weight_five, weight_onea]; norm_num, ?_, ?_⟩
  · rw [avgRisk, avgRisk, d1, d2, d3, d4]
    exact hle
  · intro hne
    rw [avgRisk, d1, d2] at hne
    rw [avgRisk, avgRisk, d1, d2, d3, d4]
    exact hlt hne

/-- A bucket companion finding used by the C6 witness. -/
def rowTier3 : RiskJoinRow :=
  ⟨⟨1, 1, "risk", "リスク20%上昇", some 20, "increase", 1, 100⟩, ⟨1, "3"⟩,
    ⟨1, "叢生", 80⟩⟩

/-- The tier-5 finding replaced in the C6 witness. -/
def rowTier5 : RiskJoinRow :=
  ⟨⟨2, 1, "risk", "リスク10%上昇", some 10, "increase", 1, 100⟩, ⟨2, "5"⟩,
    ⟨1, "叢生", 80⟩⟩

/-- C6 witness: in a concrete two-finding bucket, upgrading the tier-5
finding to tier 1a strictly reduces the weighted average's distance to its
value. -/
theorem C6_weighting_monotonicity_witness :
    |avgRisk ([rowTier3] ++ retier rowTier5 "1a" :: []) - 10| <
      |avgRisk ([rowTier3] ++ rowTier5 :: []) - 10| :=
  (C6_weighting_monotonicity [rowTier3] [] rowTier5 10 rfl rfl
      (by norm_num)).2.2
    (of_decide_eq_true (by with_unfolding_all rfl))

theorem mem_generate_age_risk_profiles (db : DB) (r : AgeRiskProfileRow) :
    r ∈ generate_age_risk_profiles db ↔
      ∃ T ∈ age_thresholds, riskProfileFor db T = some r := by
  simp [generate_age_risk_profiles, List.mem_filterMap]

theorem riskProfileFor_some_threshold (db : DB) (T : ℤ) (r : AgeRiskProfileRow)
    (h : riskProfileFor db T = some r) : r.age_threshold = T := by
  unfold riskProfileFor at h
  split_ifs at h with h1 h2 <;> simp only [Option.some.injEq] at h <;>
    (try cases h) <;> rfl

theorem riskContribS_bounds (x : RiskJoinRow)
    (h : ∀ v : ℚ, x.finding.effect_value = some v → 0 ≤ v ∧ v ≤ 100) :
    0 ≤ riskContribS x ∧ riskContribS x ≤ 100 * riskContribW x := by
  unfold riskContribS riskContribW truthyVal
  cases hev : x.finding.effect_value with
  | none => simp
  | some v =>
    obtain ⟨hv0, hv100⟩ := h v hev
    by_cases hvz : v = 0
    · simp [hvz]
    · have hwpos := get_evidence_level_weight_pos x.paper.evidence_level
      have hne : (v != 0) = true := by simp [hvz]
      simp only [hvz, if_pos, if_neg, hne, if_true, ne_eq,
        not_false_iff]
      constructor
      · exact mul_nonneg hv0 (le_of_lt hwpos)
      · exact mul_le_mul_of_nonneg_right hv100 (le_of_lt hwpos)

theorem riskWsum_cons (x : RiskJoinRow) (xs : List RiskJoinRow) :
    riskWsum (x :: xs) = riskContribS x + riskWsum xs := by
  simp [riskWsum]

theorem riskWtot_cons (x : RiskJoinRow) (xs : List RiskJoinRow) :
    riskWtot (x :: xs) = riskContribW x + riskWtot xs := by
  simp [riskWtot]

theorem riskWsum_bounds (rows : List RiskJoinRow)
    (h : ∀ j ∈ rows, ∀ v : ℚ, j.finding.effect_value = some v →
      0 ≤ v ∧ v ≤ 100) :
    0 ≤ riskWsum rows ∧ riskWsum rows ≤ 100 * riskWtot rows := by
  induction rows with
  | nil => simp [riskWsum, riskWtot]
  | cons x xs ih =>
    obtain ⟨hx0, hx1⟩ := riskContribS_bounds x (h x (List.mem_cons_self x xs))
    obtain ⟨hs0, hs1⟩ := ih fun j hj v hv => h j (List.mem_cons_of_mem x hj) v hv
    rw [riskWsum_cons, riskWtot_cons]
    constructor
    · linarith
    · nlinarith

/-- C1 counterexample: with no findings at all, the run generates NO
`age_risk_profiles` row whatsoever — `if findings:` has no else branch, so
the threshold-12 row is absent; and a single `5倍`-style finding of value
400 yields a stored `risk_value` of 400, outside [0, 100]. -/
theorem C1_counterexample :
    generate_age_risk_profiles emptyDB = [] ∧
    ((generate_age_risk_profiles db400).map fun r =>
        (r.age_threshold, r.risk_value)) =
      [(12, 400), (18, 400), (25, 400), (40, 400), (60, 400)] ∧
    ¬ ((400 : ℚ) ≤ 100) :=
  of_decide_eq_true (by with_unfolding_all rfl)

/-- C1 amended: a row keyed by threshold T is generated iff at least one
qualifying Finding is fetched for T (the no-findings default is
unreachable); every generated row's confidence lies in [0, 0.95]; and a
generated row's risk value lies in [0, 100] provided every contributing
effect value does (default rows carry `T/2 ∈ [6, 30]`). -/
theorem C1_risk_profile_rows (db : DB) (T : ℤ) (hT : T ∈ age_thresholds) :
    ((∃ r ∈ generate_age_risk_profiles db, r.age_threshold = T) ↔
      fetchRisk db T ≠ []) ∧
    (∀ r ∈ generate_age_risk_profiles db,
      0 ≤ r.confidence_level ∧ r.confidence_level ≤ 19/20) ∧
    (∀ r ∈ generate_age_risk_profiles db, r.age_threshold = T →
      (∀ j ∈ fetchRisk db T, ∀ v : ℚ, j.finding.effect_value = some v →
        0 ≤ v ∧ v ≤ 100) →
      0 ≤ r.risk_value ∧ r.risk_value ≤ 100) := by
  refine ⟨⟨?_, ?_⟩, ?_, ?_⟩
  · rintro ⟨r, hr, hrT⟩
    rw [mem_generate_age_risk_profiles] at hr
    obtain ⟨T', _, hsome⟩ := hr
    have hT' := riskProfileFor_some_threshold db T' r hsome
    rw [hrT] at hT'
    subst hT'
    unfold riskProfileFor at hsome
    intro hnil
    rw [hnil] at hsome
    simp at hsome
  · intro hne
    have hne' : (fetchRisk db T).isEmpty = false := by
      simpa [List.isEmpty_iff] using hne
    have hs : ∃ r, riskProfileFor db T = some r := by
      unfold riskProfileFor
      rw [hne']
      by_cases hw : 0 < riskWtot (fetchRisk db T) <;> simp [hw]
    obtain ⟨r, hr⟩ := hs
    exact ⟨r, (mem_generate_age_risk_profiles db r).mpr ⟨T, hT, hr⟩,
      riskProfileFor_some_threshold db T r hr⟩
  · intro r hr
    rw [mem_generate_age_risk_profiles] at hr
    obtain ⟨T', _, hsome⟩ := hr
    unfold riskProfileFor at hsome
    split_ifs at hsome with h1 h2 <;>
      simp only [Option.some.injEq] at hsome
    · cases hsome
      constructor
      · exact le_min
          (div_nonneg (le_of_lt h2) (Nat.cast_nonneg _)) (by norm_num)
      · exact min_le_right _ _
    · cases hsome
      constructor <;> norm_num
  · intro r hr hrT hvals
    rw [mem_generate_age_risk_profiles] at hr
    obtain ⟨T', hT'mem, hsome⟩ := hr
    have hT' := riskProfileFor_some_threshold db T' r hsome
    rw [hrT] at hT'
    subst hT'
    unfold riskProfileFor at hsome
    split_ifs at hsome with h1 h2 <;>
      simp only [Option.some.injEq] at hsome
    · obtain ⟨hs0, hs1⟩ := riskWsum_bounds (fetchRisk db T) hvals
      cases hsome
      constructor
      · exact div_nonneg hs0 (le_of_lt h2)
      · rw [div_le_iff₀ h2]
        linarith
    · cases hsome
      fin_cases hT <;> norm_num

/-- C1 witness: on a store with one qualifying finding, the threshold-12
row exists. -/
theorem C1_risk_profile_rows_witness :
    ∃ r ∈ generate_age_risk_profiles db3, r.age_threshold = 12 :=
  (C1_risk_profile_rows db3 12 (by decide)).1.mpr
    (of_decide_eq_true (by with_unfolding_all rfl))

/-- The prevention bonus exactly as the spec words it: `0.5*(18-age)` for
ages up to 18. -/
def prevention_bonus_spec (age : ℤ) : ℚ :=
  if age ≤ 18 then ((18 : ℚ) - (age : ℚ)) * (1/2) else 0

/-- The adult-complexity bonus exactly as the spec words it:
`2*(condition_count - 1)` for ages 35–55 with at least two conditions. -/
def adult_complexity_bonus_spec (age : ℤ) (n : ℕ) : ℚ :=
  if 35 ≤ age ∧ age ≤ 55 ∧ 2 ≤ n then ((n : ℚ) - 1) * 2 else 0

/-- C2: for every in-range age and non-empty condition list, the returned
total score is the rounding of the timing + severity + risk sub-scores
plus the prevention bonus and the adult-complexity bonus, clamped to
[10, 100]; at age 10 the prevention bonus is `0.5*(18-10) = 4`. -/
theorem C2_necessity_total :
    (∀ (db : DB) (tabs : Tables) (age : ℤ) (ids : List ℕ),
      1 ≤ age → age ≤ 100 → ids ≠ [] →
      (calculate_ortho_necessity_score db tabs age ids).total_score =
        pyRound (max 10 (min 100
          (calculate_timing_score tabs age + calculate_severity_score db ids +
            calculate_risk_score tabs age ids + prevention_bonus_spec age +
            adult_complexity_bonus_spec age ids.length)))) ∧
    prevention_bonus_spec 10 = 4 := by
  constructor
  · intro db tabs age ids _ _ hne
    obtain ⟨a, l, rfl⟩ : ∃ a l, ids = a :: l := by
      cases ids with
      | nil => exact absurd rfl hne
      | cons a l => exact ⟨a, l, rfl⟩
    simp only [calculate_ortho_necessity_score]
    congr 1
    congr 1
    congr 1
    by_cases h18 : age ≤ 18 <;>
      by_cases hadult : 35 ≤ age ∧ age ≤ 55 ∧ 2 ≤ (a :: l).length <;>
        simp only [prevention_bonus_spec, adult_complexity_bonus_spec, h18,
          hadult, if_true, if_false, ite_true, ite_false, true_and, and_self,
          and_true] <;>
      (try ring) <;>
      · have hc : (0 : ℚ) ≤ (18 : ℚ) - (age : ℚ) := by
          have hq : (age : ℚ) ≤ 18 := by exact_mod_cast h18
          linarith
        rw [max_eq_right hc]
        ring
  · have h : ((10 : ℤ) : ℚ) = 10 := by norm_num
    simp only [prevention_bonus_spec, h]
    norm_num

/-- C2 witness: the formula instantiated at age 10 with one condition of
base severity 80. -/
theorem C2_necessity_total_witness :
    (calculate_ortho_necessity_score db3 tables0 10 [1]).total_score =
      pyRound (max 10 (min 100
        (calculate_timing_score tables0 10 + calculate_severity_score db3 [1] +
          calculate_risk_score tables0 10 [1] + prevention_bonus_spec 10 +
          adult_complexity_bonus_spec 10 [1].length))) :=
  C2_necessity_total.1 db3 tables0 10 [1] (by decide) (by decide) (by decide)

end OrthoEvidence
